import Mathlib

/-!
Verification of the exchange-adapter core of the panda-mcp repository:
the retrying fetcher, the pair cache of BaseExchange.fetch_all_pairs,
the ExchangeFactory registry, and the Binance / Bybit / Hyperliquid
adapter methods, shallowly embedded as executable Lean functions.
-/

namespace PandaMCP

/-! ## Retrying fetcher (BaseExchange._fetch_with_retry)

The method body performs one HTTP GET, raises for a non-2xx status
(a transport error) and then parses the JSON body (a parse error on a
malformed body).  The decorator is
retry(stop=stop_after_attempt(3), wait=wait_exponential(multiplier=1, min=2, max=10))
from the tenacity library, whose semantics are embedded here:
the default retry predicate retries every exception, the wait before the
next attempt after attempt n is max(min, min(multiplier * 2 ^ n, max)),
and once the stop condition holds the library raises a RetryError
wrapping the outcome of the last attempt (reraise defaults to False). -/

/-- Outcome of a single attempt of the decorated body: a transport or
status failure from the HTTP layer, or a JSON parse failure. -/
inductive AttemptError where
  | transport (msg : String)
  | parse (msg : String)
deriving DecidableEq, Repr

/-- Observable outcome of a retry-decorated call: the returned value or a
tenacity RetryError wrapping the last attempt failure, together with the
number of attempts used and the list of waits slept between attempts. -/
inductive RetryOutcome (α : Type) where
  | success (v : α) (attemptsUsed : Nat) (waits : List Nat)
  | retryError (lastError : AttemptError) (attemptsUsed : Nat) (waits : List Nat)
deriving DecidableEq, Repr

/-- Tenacity wait_exponential: the wait after attempt number n. -/
def waitExponential (multiplier mn mx attemptNumber : Nat) : Nat :=
  Nat.max (Nat.max 0 mn) (Nat.min (multiplier * 2 ^ attemptNumber) mx)

/-- Tenacity retry loop: run the attempt body (modelled as a function from
the attempt number to that attempt outcome), retrying every failure until
stop_after_attempt(stopMax) holds; fuel bounds the recursion and is chosen
at least stopMax by the callers. -/
def tenacityRun {α : Type} (net : Nat → Except AttemptError α)
    (stopMax multiplier mn mx : Nat) :
    Nat → Nat → List Nat → RetryOutcome α
  | fuel, attemptNumber, waits =>
    match net attemptNumber with
    | .ok v => .success v attemptNumber waits
    | .error e =>
      if stopMax ≤ attemptNumber then
        .retryError e attemptNumber waits
      else
        match fuel with
        | 0 => .retryError e attemptNumber waits
        | fuel' + 1 =>
          tenacityRun net stopMax multiplier mn mx fuel' (attemptNumber + 1)
            (waits ++ [waitExponential multiplier mn mx attemptNumber])

/-- BaseExchange._fetch_with_retry: the tenacity loop instantiated with
stop_after_attempt(3) and wait_exponential(multiplier=1, min=2, max=10),
over an abstract network behaviour assigning each attempt its outcome. -/
def fetchWithRetry {α : Type} (net : Nat → Except AttemptError α) : RetryOutcome α :=
  tenacityRun net 3 1 2 10 3 1 []

/-- A network behaviour whose first attempt yields a malformed-JSON parse
error and whose later attempts succeed. -/
def netParseThenOk : Nat → Except AttemptError Nat :=
  fun n => if n = 1 then .error (.parse "Expecting value: line 1 column 1") else .ok 7

/-! ## Pair cache and BaseExchange.fetch_all_pairs

Python dicts keyed by strings are embedded as association lists with
last-write-wins update, and the wall clock as an integer passed to each
call.  A call to a process_MARKET method is the unit of network fetching
counted by fetchCount. -/

/-- Python dict lookup (dict.get / the in operator). -/
def pyDictGet {β : Type} (d : List (String × β)) (k : String) : Option β :=
  match d with
  | [] => none
  | (k₁, v) :: rest => if k₁ = k then some v else pyDictGet rest k

/-- Python dict assignment: overwrite the existing entry for the key in
place, or append a fresh entry. -/
def pyDictSet {β : Type} (d : List (String × β)) (k : String) (v : β) : List (String × β) :=
  match d with
  | [] => [(k, v)]
  | (k₁, v₁) :: rest => if k₁ = k then (k, v) :: rest else (k₁, v₁) :: pyDictSet rest k v

/-- A single-quote character, built by code point to keep string literals
plain. -/
def sq : String := String.singleton (Char.ofNat 39)

/-- The Python repr of a list of strings, as interpolated into error
messages by f-strings. -/
def pyStrListRepr (xs : List String) : String :=
  "[" ++ String.intercalate ", " (xs.map (fun s => sq ++ s ++ sq)) ++ "]"

/-- A pair record as produced by generate_symbol_updates_with_non_trading:
the symbol and pair fields of the fetched dict plus the exchange tag and
the is_active flag. -/
structure PairRecord where
  symbol : String
  pair : String
  exchange : String
  is_active : Bool
deriving DecidableEq, Repr

/-- The dictionary returned by fetch_all_pairs, with its active and
inactive keys. -/
structure PairsResult where
  active : List PairRecord
  inactive : List PairRecord
deriving DecidableEq, Repr

/-- Errors raised by fetch_all_pairs and by the process methods it
dispatches to. -/
inductive PairsError where
  | valueError (msg : String)
  | notImplementedError (msg : String)
deriving DecidableEq, Repr

/-- Observable outcome of one fetch_all_pairs call: the returned value or
raised error, the cache contents after the call, and how many live
process-method fetches the call issued. -/
structure FetchAllOutcome where
  result : Except PairsError PairsResult
  cache : List (String × Int × PairsResult)
  fetchCount : Nat

/-- BaseExchange.fetch_all_pairs.  supported embeds get_supported_markets,
hasProcess the hasattr check for the process_MARKET method, and process
the dispatched method returning its (active, inactive) tuple or raising.
The clock value now stands for the time.time() calls made during this
call. -/
def fetch_all_pairs (supported : List String) (hasProcess : String → Bool)
    (process : String → Except PairsError (List PairRecord × List PairRecord))
    (cache_ttl : Int) (market_type : String) (use_cache : Bool)
    (now : Int) (cache : List (String × Int × PairsResult)) : FetchAllOutcome :=
  if market_type ∉ supported then
    { result := .error (.valueError ("Unsupported market type " ++ sq ++ market_type ++ sq ++
        ". Supported markets: " ++ pyStrListRepr supported)),
      cache := cache, fetchCount := 0 }
  else
    let cached? : Option PairsResult :=
      if use_cache then
        match pyDictGet cache market_type with
        | some (timestamp, data) => if now - timestamp < cache_ttl then some data else none
        | none => none
      else none
    match cached? with
    | some data => { result := .ok data, cache := cache, fetchCount := 0 }
    | none =>
      if hasProcess market_type then
        match process market_type with
        | .error e => { result := .error e, cache := cache, fetchCount := 1 }
        | .ok (active, inactive) =>
          let r : PairsResult := { active := active, inactive := inactive }
          { result := .ok r,
            cache := if use_cache then pyDictSet cache market_type (now, r) else cache,
            fetchCount := 1 }
      else
        { result := .error (.notImplementedError ("Method process_" ++ market_type ++
            " not implemented")),
          cache := cache, fetchCount := 0 }

/-! ## Bybit adapter (BybitExchange.fetch_klines, fetch_funding_rate_history)

Vendor responses carry an envelope with retCode, retMsg and a result.list
array; kline rows are 7-element string arrays.  URL construction is
omitted: it only feeds the fetcher, whose response is passed in here. -/

/-- Runtime errors raised inside an adapter method: ValueError for input
validation (and for a failed int() conversion), and the plain Exception
raised when the vendor envelope reports a failure. -/
inductive AdapterError where
  | valueError (msg : String)
  | apiException (msg : String)
deriving DecidableEq, Repr

/-- A Bybit response envelope: retCode, optional retMsg, and the rows
under result.list (absent pieces default to the empty list via .get). -/
structure BybitResponse (ρ : Type) where
  retCode : Int
  retMsg : Option String
  resultList : List ρ
deriving DecidableEq, Repr

/-- One raw Bybit kline row: [startTime, open, high, low, close, volume,
turnover], all strings. -/
structure BybitRawKline where
  startTime : String
  openPx : String
  highPx : String
  lowPx : String
  closePx : String
  volume : String
  turnover : String
deriving DecidableEq, Repr

/-- One kline dict returned by BybitExchange.fetch_klines. -/
structure BybitKline where
  open_time : Int
  openPrice : String
  highPrice : String
  lowPrice : String
  closePrice : String
  volume : String
  turnover : String
deriving DecidableEq, Repr

/-- Accumulating decimal digit parse over a character list; any
non-digit character fails. -/
def parseDigitsAux : List Char → Nat → Option Nat
  | [], acc => some acc
  | c :: cs, acc =>
    if c.isDigit then parseDigitsAux cs (acc * 10 + (c.toNat - 48)) else none

/-- Python int(s) on a plain decimal literal with an optional leading
minus sign; None where Python raises ValueError. -/
def pyInt (s : String) : Option Int :=
  match s.data with
  | [] => none
  | c :: cs =>
    if c = Char.ofNat 45 then
      match cs with
      | [] => none
      | _ => (parseDigitsAux cs 0).map fun n => -(n : Int)
    else (parseDigitsAux (c :: cs) 0).map fun n => (n : Int)

/-- Conversion of one raw row, with int(item[0]) embedded as decimal
string parsing (None on a malformed literal, where Python raises). -/
def parseBybitKline (r : BybitRawKline) : Option BybitKline :=
  (pyInt r.startTime).map fun t =>
    { open_time := t, openPrice := r.openPx, highPrice := r.highPx, lowPrice := r.lowPx,
      closePrice := r.closePx, volume := r.volume, turnover := r.turnover }

/-- The kline-building loop over the rows of result.list, in order;
conversion failure on any row aborts (Python raises there). -/
def parseBybitKlines : List BybitRawKline → Option (List BybitKline)
  | [] => some []
  | r :: rest =>
    match parseBybitKline r, parseBybitKlines rest with
    | some k, some ks => some (k :: ks)
    | _, _ => none

/-- The interval whitelist of BybitExchange.fetch_klines. -/
def bybitValidIntervals : List String :=
  ["1", "3", "5", "15", "30", "60", "120", "240", "360", "720", "D", "W", "M"]

/-- BybitExchange.fetch_klines on an already-fetched response: validation
in source order, the retCode envelope check, row conversion, and the
final reversal from newest-first to oldest-first. -/
def bybit_fetch_klines (_symbol interval market : String) (limit : Int)
    (response : BybitResponse BybitRawKline) : Except AdapterError (List BybitKline) :=
  if interval ∉ bybitValidIntervals then
    .error (.valueError ("Invalid interval " ++ sq ++ interval ++ sq ++
      ". Supported intervals: " ++ String.intercalate ", " bybitValidIntervals))
  else if limit > 1000 ∨ limit < 1 then
    .error (.valueError "Limit must be between 1 and 1000")
  else if market ≠ "spot" ∧ market ≠ "futures" then
    .error (.valueError ("Invalid market type " ++ sq ++ market ++ sq ++
      ". Supported: " ++ sq ++ "spot" ++ sq ++ ", " ++ sq ++ "futures" ++ sq))
  else if response.retCode ≠ 0 then
    .error (.apiException ("Bybit API error: " ++ response.retMsg.getD "Unknown error"))
  else
    match parseBybitKlines response.resultList with
    | none => .error (.valueError "invalid literal for int()")
    | some klines => .ok klines.reverse

/-- A fixed mocked Bybit kline response: retCode 0 and two rows in the
native newest-first order. -/
def c4Response : BybitResponse BybitRawKline :=
  { retCode := 0, retMsg := some "OK",
    resultList :=
      [{ startTime := "200", openPx := "30", highPx := "31", lowPx := "29",
         closePx := "30", volume := "5", turnover := "150" },
       { startTime := "100", openPx := "29", highPx := "30", lowPx := "28",
         closePx := "30", volume := "4", turnover := "120" }] }

/-- The converted rows of c4Response, still newest-first. -/
def c4Klines : List BybitKline :=
  [{ open_time := 200, openPrice := "30", highPrice := "31", lowPrice := "29",
     closePrice := "30", volume := "5", turnover := "150" },
   { open_time := 100, openPrice := "29", highPrice := "30", lowPrice := "28",
     closePrice := "30", volume := "4", turnover := "120" }]

/-- One raw row of the Bybit funding-history result.list, fields read via
.get and so optional. -/
structure BybitFundingRow where
  symbol : Option String
  fundingRate : Option String
  fundingRateTimestamp : Option String
deriving DecidableEq, Repr

/-- One record returned by BybitExchange.fetch_funding_rate_history. -/
structure BybitFundingRecord where
  symbol : Option String
  funding_rate : Option String
  funding_rate_timestamp : Option String
deriving DecidableEq, Repr

/-- BybitExchange.fetch_funding_rate_history on an already-fetched
response: validation in source order, the retCode envelope check, and row
reshaping with no reversal. -/
def bybit_fetch_funding_rate_history (_symbol : String) (start_time end_time : Option Int)
    (limit : Int) (market : String) (response : BybitResponse BybitFundingRow) :
    Except AdapterError (List BybitFundingRecord) :=
  if limit > 200 ∨ limit < 1 then
    .error (.valueError "Limit must be between 1 and 200")
  else if start_time.isSome ∧ end_time.isNone then
    .error (.valueError "If startTime is provided, endTime must also be provided")
  else if market ≠ "futures" then
    .error (.valueError ("Invalid market type " ++ sq ++ market ++ sq ++
      ". Supported: " ++ sq ++ "futures" ++ sq))
  else if response.retCode ≠ 0 then
    .error (.apiException ("Bybit API error: " ++ response.retMsg.getD "Unknown error"))
  else
    .ok (response.resultList.map fun r =>
      { symbol := r.symbol, funding_rate := r.fundingRate,
        funding_rate_timestamp := r.fundingRateTimestamp })

/-! ## Binance adapter (fetch_klines, fetch_symbols_from_exchange,
process_spot / process_futures) -/

/-- One raw Binance kline row; only the eleven array positions the
adapter reads are modelled, numeric positions as integers and price and
volume positions as strings, as Binance serialises them. -/
structure BinanceRawKline where
  openTime : Int
  openPx : String
  highPx : String
  lowPx : String
  closePx : String
  volume : String
  closeTime : Int
  quoteVolume : String
  trades : Int
  takerBuyBase : String
  takerBuyQuote : String
deriving DecidableEq, Repr

/-- One kline dict returned by BinanceExchange.fetch_klines. -/
structure BinanceKline where
  open_time : Int
  openPrice : String
  highPrice : String
  lowPrice : String
  closePrice : String
  volume : String
  close_time : Int
  quote_volume : String
  trades : Int
  taker_buy_base : String
  taker_buy_quote : String
deriving DecidableEq, Repr

/-- The interval whitelist of BinanceExchange.fetch_klines. -/
def binanceValidIntervals : List String :=
  ["1s", "1m", "3m", "5m", "15m", "30m", "1h", "2h", "4h", "6h", "8h", "12h",
   "1d", "3d", "1w", "1M"]

/-- BinanceExchange.fetch_klines on an already-fetched response:
validation in source order (interval, then the per-market limit cap of
1000 for spot and 1500 otherwise, then the market whitelist), and row
reshaping with no reversal. -/
def binance_fetch_klines (_symbol interval market : String) (limit : Int)
    (_timezone : String) (response : List BinanceRawKline) :
    Except AdapterError (List BinanceKline) :=
  if interval ∉ binanceValidIntervals then
    .error (.valueError ("Invalid interval " ++ sq ++ interval ++ sq ++
      ". Supported intervals: " ++ String.intercalate ", " binanceValidIntervals))
  else
    let max_limit : Int := if market = "spot" then 1000 else 1500
    if limit > max_limit then
      .error (.valueError ("Limit cannot exceed " ++ toString max_limit ++ " for " ++
        market ++ " market"))
    else if market ≠ "spot" ∧ market ≠ "futures" then
      .error (.valueError ("Invalid market type " ++ sq ++ market ++ sq ++
        ". Supported: " ++ sq ++ "spot" ++ sq ++ ", " ++ sq ++ "futures" ++ sq))
    else
      .ok (response.map fun r =>
        { open_time := r.openTime, openPrice := r.openPx, highPrice := r.highPx,
          lowPrice := r.lowPx, closePrice := r.closePx, volume := r.volume,
          close_time := r.closeTime, quote_volume := r.quoteVolume, trades := r.trades,
          taker_buy_base := r.takerBuyBase, taker_buy_quote := r.takerBuyQuote })

/-- The symbol and pair dict built for each kept entry by
fetch_symbols_from_exchange. -/
structure SymbolPair where
  symbol : String
  pair : String
deriving DecidableEq, Repr

/-- One entry of the symbols array of a Binance exchange-info response;
fields read with .get are optional, directly indexed fields are plain
(pairKey is the pair field read on the futures branch). -/
structure BinanceSymbolInfo where
  symbol : String
  baseAsset : String
  quoteAsset : Option String
  status : Option String
  contractType : Option String
  pairKey : String
deriving DecidableEq, Repr

/-- The single-pass spot loop of fetch_symbols_from_exchange: keep
entries whose quoteAsset matches, splitting on status TRADING. -/
def binanceSpotClassify (quote_asset : String) (items : List BinanceSymbolInfo) :
    List SymbolPair × List SymbolPair :=
  items.foldl
    (fun acc item =>
      if item.quoteAsset = some quote_asset then
        let symbol_data : SymbolPair := { symbol := item.baseAsset, pair := item.symbol }
        if item.status = some "TRADING" then (acc.1 ++ [symbol_data], acc.2)
        else (acc.1, acc.2 ++ [symbol_data])
      else acc)
    ([], [])

/-- The single-pass futures loop of fetch_symbols_from_exchange: keep
entries whose quoteAsset matches and whose contractType is PERPETUAL,
splitting on status TRADING; the pair field comes from the pair key. -/
def binanceFuturesClassify (quote_asset : String) (items : List BinanceSymbolInfo) :
    List SymbolPair × List SymbolPair :=
  items.foldl
    (fun acc item =>
      if item.quoteAsset = some quote_asset ∧ item.contractType = some "PERPETUAL" then
        let symbol_data : SymbolPair := { symbol := item.baseAsset, pair := item.pairKey }
        if item.status = some "TRADING" then (acc.1 ++ [symbol_data], acc.2)
        else (acc.1, acc.2 ++ [symbol_data])
      else acc)
    ([], [])

/-- BinanceExchange.fetch_symbols_from_exchange on an already-fetched
exchange-info response, branching on the exchange identifier. -/
def binance_fetch_symbols_from_exchange (quote_asset : String)
    (data : List BinanceSymbolInfo) (exchange : String) :
    Except PairsError (List SymbolPair × List SymbolPair) :=
  if exchange = "binance-spot" then .ok (binanceSpotClassify quote_asset data)
  else if exchange = "binance-futures" then .ok (binanceFuturesClassify quote_asset data)
  else .error (.valueError ("Invalid Binance exchange type: " ++ exchange))

/-- BaseExchange.generate_symbol_updates_with_non_trading: tag every
trading pair active and every non-trading pair inactive, stamping the
exchange identifier. -/
def generate_symbol_updates_with_non_trading (exchange : String)
    (trading_pairs non_trading_pairs : List SymbolPair) :
    List PairRecord × List PairRecord :=
  (trading_pairs.map fun p =>
      { symbol := p.symbol, pair := p.pair, exchange := exchange, is_active := true },
   non_trading_pairs.map fun p =>
      { symbol := p.symbol, pair := p.pair, exchange := exchange, is_active := false })

/-- BinanceExchange.process_spot over the exchange-info response the spot
URL fetch yields: classify with the default quote asset USDT under the
binance-spot identifier, then tag via generate_symbol_updates (which
delegates to generate_symbol_updates_with_non_trading). -/
def binance_process_spot (data : List BinanceSymbolInfo) :
    Except PairsError (List PairRecord × List PairRecord) :=
  match binance_fetch_symbols_from_exchange "USDT" data "binance-spot" with
  | .error e => .error e
  | .ok (trading, non_trading) =>
    .ok (generate_symbol_updates_with_non_trading "binance-spot" trading non_trading)

/-- BinanceExchange.process_futures, analogously under binance-futures. -/
def binance_process_futures (data : List BinanceSymbolInfo) :
    Except PairsError (List PairRecord × List PairRecord) :=
  match binance_fetch_symbols_from_exchange "USDT" data "binance-futures" with
  | .error e => .error e
  | .ok (trading, non_trading) =>
    .ok (generate_symbol_updates_with_non_trading "binance-futures" trading non_trading)

/-- The hasattr dispatch surface of BinanceExchange: process_spot and
process_futures exist. -/
def binanceHasProcess (m : String) : Bool :=
  m = "spot" ∨ m = "futures"

/-- The process-method dispatch of BinanceExchange, given the
exchange-info responses its two URLs would fetch. -/
def binanceProcess (spotData futuresData : List BinanceSymbolInfo) (m : String) :
    Except PairsError (List PairRecord × List PairRecord) :=
  if m = "spot" then binance_process_spot spotData
  else binance_process_futures futuresData

/-- The exchange-info symbols array of the C9 scenario: three symbols
quoted in the default quote asset, two TRADING and one BREAK. -/
def c9SpotData : List BinanceSymbolInfo :=
  [{ symbol := "BTCUSDT", baseAsset := "BTC", quoteAsset := some "USDT",
     status := some "TRADING", contractType := none, pairKey := "BTCUSDT" },
   { symbol := "ETHUSDT", baseAsset := "ETH", quoteAsset := some "USDT",
     status := some "TRADING", contractType := none, pairKey := "ETHUSDT" },
   { symbol := "HIFIUSDT", baseAsset := "HIFI", quoteAsset := some "USDT",
     status := some "BREAK", contractType := none, pairKey := "HIFIUSDT" }]

/-! ## Hyperliquid adapter (HyperliquidExchange.fetch_market_data)

The 24-hour change computation of fetch_market_data; the IEEE doubles of
the Python source are abstracted as exact rationals, with the asset
context fields markPx and prevDayPx read via ctx.get with default 0. -/

/-- Python round(x, 2) half-to-even on the scaled integer part. -/
def pyRoundHalfEven (q : ℚ) : ℤ :=
  let f : ℤ := ⌊q⌋
  let r : ℚ := q - f
  if r < 1 / 2 then f
  else if 1 / 2 < r then f + 1
  else if f % 2 = 0 then f else f + 1

/-- Python round(x, 2): round half-to-even at two decimal places. -/
def round2 (q : ℚ) : ℚ :=
  (pyRoundHalfEven (q * 100) : ℚ) / 100

/-- The guarded 24h percentage change expression of fetch_market_data:
(mark_px - prev_day_px) / prev_day_px * 100 when prev_day_px is positive,
else 0. -/
def hl_price_change_24h (mark_px prev_day_px : ℚ) : ℚ :=
  if 0 < prev_day_px then (mark_px - prev_day_px) / prev_day_px * 100 else 0

/-- The price_change_24h field as fetch_market_data reports it: markPx
and prevDayPx default to 0 when absent from the asset context, and the
guarded change is rounded to 2 decimals. -/
def hl_market_price_change (markPx prevDayPx : Option ℚ) : ℚ :=
  round2 (hl_price_change_24h (markPx.getD 0) (prevDayPx.getD 0))

/-! ## ExchangeFactory registry -/

/-- The adapter classes registered by the exchange_factory module. -/
inductive AdapterClass where
  | binanceExchange
  | bybitExchange
  | hyperliquidExchange
deriving DecidableEq, Repr

/-- Python str.lower() on the registry names, character by character
(the registered names are ASCII). -/
def pyLower (s : String) : String :=
  String.mk (s.data.map Char.toLower)

namespace ExchangeFactory

/-- ExchangeFactory.register: store the class under the lower-cased name,
overwriting any previous registration. -/
def register (reg : List (String × AdapterClass)) (name : String) (cls : AdapterClass) :
    List (String × AdapterClass) :=
  pyDictSet reg (pyLower name) cls

/-- ExchangeFactory.list_exchanges: the registered names in insertion
order. -/
def list_exchanges (reg : List (String × AdapterClass)) : List String :=
  reg.map Prod.fst

/-- ExchangeFactory.create: case-insensitive lookup of the adapter class
(the class is then instantiated); an unregistered name raises a
ValueError listing the registered names. -/
def create (reg : List (String × AdapterClass)) (name : String) :
    Except AdapterError AdapterClass :=
  match pyDictGet reg (pyLower name) with
  | some cls => .ok cls
  | none => .error (.valueError ("Exchange " ++ sq ++ name ++ sq ++
      " not found. Available exchanges: " ++ pyStrListRepr (list_exchanges reg)))

/-- The registry as populated at module import: binance, bybit and
hyperliquid in that order. -/
def initialRegistry : List (String × AdapterClass) :=
  register (register (register [] "binance" .binanceExchange) "bybit" .bybitExchange)
    "hyperliquid" .hyperliquidExchange

end ExchangeFactory

end PandaMCP

namespace PandaMCP

/-- Lookup after a Python dict assignment of the same key yields the new
value. -/
theorem pyDictGet_pyDictSet_self {β : Type} (d : List (String × β)) (k : String) (v : β) :
    pyDictGet (pyDictSet d k v) k = some v := by
  induction d with
  | nil => simp [pyDictGet, pyDictSet]
  | cons hd tl ih =>
    obtain ⟨k₁, v₁⟩ := hd
    by_cases h : k₁ = k
    · simp [pyDictGet, pyDictSet, h]
    · simp [pyDictGet, pyDictSet, h, ih]

/-- Two successive Python dict assignments to one key collapse to the
second. -/
theorem pyDictSet_pyDictSet_self {β : Type} (d : List (String × β)) (k : String) (v₁ v₂ : β) :
    pyDictSet (pyDictSet d k v₁) k v₂ = pyDictSet d k v₂ := by
  induction d with
  | nil => simp [pyDictSet]
  | cons hd tl ih =>
    obtain ⟨k₀, v₀⟩ := hd
    by_cases h : k₀ = k
    · simp [pyDictSet, h]
    · simp [pyDictSet, h, ih]

/-- C1 counterexample: against the claim that a malformed-JSON parse error
is not retried, a parse error on the first attempt is retried: the call
runs a second attempt (after the 2 time-unit wait) and returns its value
instead of propagating the parse error after a single attempt. -/
theorem fetch_with_retry_retries_parse_error :
    fetchWithRetry netParseThenOk = .success 7 2 [2] := by
  decide

/-- C1 (amended): the fetcher makes up to 3 total attempts with waits of
2 then 4 time-units between attempts (the configured wait for attempt n
is max(2, min(2 ^ n, 10))); every exception raised by an attempt is
retried alike, transport and parse errors both; when all 3 attempts fail,
a retry-exhausted error wrapping the last attempt failure propagates. -/
theorem fetch_with_retry_policy {α : Type} (net : Nat → Except AttemptError α) :
    (∀ v, net 1 = .ok v → fetchWithRetry net = .success v 1 []) ∧
    (∀ e₁ v, net 1 = .error e₁ → net 2 = .ok v →
      fetchWithRetry net = .success v 2 [2]) ∧
    (∀ e₁ e₂ v, net 1 = .error e₁ → net 2 = .error e₂ → net 3 = .ok v →
      fetchWithRetry net = .success v 3 [2, 4]) ∧
    (∀ e₁ e₂ e₃, net 1 = .error e₁ → net 2 = .error e₂ → net 3 = .error e₃ →
      fetchWithRetry net = .retryError e₃ 3 [2, 4]) := by
  refine ⟨?_, ?_, ?_, ?_⟩
  · intro v h1
    simp [fetchWithRetry, tenacityRun, h1]
  · intro e₁ v h1 h2
    simp [fetchWithRetry, tenacityRun, h1, h2, waitExponential]
  · intro e₁ e₂ v h1 h2 h3
    simp [fetchWithRetry, tenacityRun, h1, h2, h3, waitExponential]
  · intro e₁ e₂ e₃ h1 h2 h3
    simp [fetchWithRetry, tenacityRun, h1, h2, h3, waitExponential]

/-- C1 witness: the amended policy evaluated on a network behaviour that
fails with a transport error on every attempt. -/
theorem fetch_with_retry_policy_witness :
    fetchWithRetry (fun _ => (.error (.transport "boom") : Except AttemptError Nat)) =
      .retryError (.transport "boom") 3 [2, 4] :=
  (fetch_with_retry_policy (fun _ => .error (.transport "boom"))).2.2.2
    (.transport "boom") (.transport "boom") (.transport "boom") rfl rfl rfl

/-- C3: for a market type outside get_supported_markets, fetch_all_pairs
raises a ValueError whose message lists the supported market types, issues
zero network fetches and leaves the cache untouched. -/
theorem fetch_all_pairs_unsupported_market (supported : List String)
    (hasProcess : String → Bool)
    (process : String → Except PairsError (List PairRecord × List PairRecord))
    (cache_ttl : Int) (market_type : String) (use_cache : Bool) (now : Int)
    (cache : List (String × Int × PairsResult))
    (hm : market_type ∉ supported) :
    fetch_all_pairs supported hasProcess process cache_ttl market_type use_cache now cache =
      { result := .error (.valueError ("Unsupported market type " ++ sq ++ market_type ++ sq ++
          ". Supported markets: " ++ pyStrListRepr supported)),
        cache := cache, fetchCount := 0 } := by
  simp [fetch_all_pairs, hm]

/-- C3 witness: the unsupported market type margin against an adapter
supporting spot and futures. -/
theorem fetch_all_pairs_unsupported_market_witness :
    fetch_all_pairs ["spot", "futures"] (fun _ => true) (fun _ => .ok ([], []))
        60 "margin" true 0 [] =
      { result := .error (.valueError ("Unsupported market type " ++ sq ++ "margin" ++ sq ++
          ". Supported markets: " ++ pyStrListRepr ["spot", "futures"])),
        cache := [], fetchCount := 0 } :=
  fetch_all_pairs_unsupported_market ["spot", "futures"] (fun _ => true)
    (fun _ => .ok ([], [])) 60 "margin" true 0 [] (by decide)

/-- C10: with use_cache set to false, fetch_all_pairs leaves the cache
mapping exactly as it was, issues one live fetch even when the cache holds
a fresh entry for the market, and its result is exactly the outcome of
the dispatched process method, independent of the cache contents. -/
theorem fetch_all_pairs_no_cache_frame (supported : List String)
    (hasProcess : String → Bool)
    (process : String → Except PairsError (List PairRecord × List PairRecord))
    (cache_ttl : Int) (market_type : String) (now : Int)
    (cache : List (String × Int × PairsResult))
    (hm : market_type ∈ supported) (hp : hasProcess market_type = true) :
    (fetch_all_pairs supported hasProcess process cache_ttl market_type false now cache).cache =
      cache ∧
    (fetch_all_pairs supported hasProcess process cache_ttl market_type false now
      cache).fetchCount = 1 ∧
    (fetch_all_pairs supported hasProcess process cache_ttl market_type false now cache).result =
      (process market_type).map (fun p => { active := p.1, inactive := p.2 }) := by
  rcases h : process market_type with e | pr <;>
    simp [fetch_all_pairs, hm, hp, h, Except.map]

/-- C10 witness: a fresh cache entry for spot is neither read nor
overwritten when use_cache is false. -/
theorem fetch_all_pairs_no_cache_frame_witness :
    (fetch_all_pairs ["spot"] (fun _ => true)
        (fun _ => .ok ([PairRecord.mk "BTC" "BTCUSDT" "binance-spot" true], []))
        60 "spot" false 10
        [("spot", 5, PairsResult.mk [] [])]).cache = [("spot", 5, PairsResult.mk [] [])] ∧
    (fetch_all_pairs ["spot"] (fun _ => true)
        (fun _ => .ok ([PairRecord.mk "BTC" "BTCUSDT" "binance-spot" true], []))
        60 "spot" false 10
        [("spot", 5, PairsResult.mk [] [])]).fetchCount = 1 ∧
    (fetch_all_pairs ["spot"] (fun _ => true)
        (fun _ => .ok ([PairRecord.mk "BTC" "BTCUSDT" "binance-spot" true], []))
        60 "spot" false 10
        [("spot", 5, PairsResult.mk [] [])]).result =
      (Except.ok ([PairRecord.mk "BTC" "BTCUSDT" "binance-spot" true],
        ([] : List PairRecord))).map (fun p => { active := p.1, inactive := p.2 }) :=
  fetch_all_pairs_no_cache_frame ["spot"] (fun _ => true)
    (fun _ => .ok ([PairRecord.mk "BTC" "BTCUSDT" "binance-spot" true], []))
    60 "spot" 10 [("spot", 5, PairsResult.mk [] [])] (by decide) rfl

/-- C2: starting from a cache with no entry for a supported market, a
first cached call issues one live fetch and stores the result with its
capture timestamp; a second call within cache_ttl of the capture issues
no fetch, returns the same result and leaves the cache unchanged; a third
call once cache_ttl has elapsed issues a second fetch and overwrites the
entry with the new capture timestamp; and with an entry present, a cached
call skips the fetch exactly when now minus the capture timestamp is
below cache_ttl. -/
theorem fetch_all_pairs_cache_ttl (supported : List String)
    (hasProcess : String → Bool)
    (process : String → Except PairsError (List PairRecord × List PairRecord))
    (cache_ttl : Int) (market_type : String) (t₁ t₂ t₃ : Int)
    (c₀ : List (String × Int × PairsResult))
    (pr : List PairRecord × List PairRecord)
    (hm : market_type ∈ supported) (hp : hasProcess market_type = true)
    (hpr : process market_type = .ok pr)
    (h₀ : pyDictGet c₀ market_type = none)
    (h₁₂ : t₂ - t₁ < cache_ttl) (h₁₃ : cache_ttl ≤ t₃ - t₁) :
    let r : PairsResult := { active := pr.1, inactive := pr.2 }
    let o₁ := fetch_all_pairs supported hasProcess process cache_ttl market_type true t₁ c₀
    let o₂ := fetch_all_pairs supported hasProcess process cache_ttl market_type true t₂ o₁.cache
    let o₃ := fetch_all_pairs supported hasProcess process cache_ttl market_type true t₃ o₂.cache
    o₁.fetchCount = 1 ∧ o₁.result = .ok r ∧
      pyDictGet o₁.cache market_type = some (t₁, r) ∧
    o₂.fetchCount = 0 ∧ o₂.result = o₁.result ∧ o₂.cache = o₁.cache ∧
    o₃.fetchCount = 1 ∧ o₃.result = .ok r ∧
      pyDictGet o₃.cache market_type = some (t₃, r) ∧
    (∀ (now timestamp : Int) (d : PairsResult) (c : List (String × Int × PairsResult)),
      pyDictGet c market_type = some (timestamp, d) →
      ((fetch_all_pairs supported hasProcess process cache_ttl market_type true now
          c).fetchCount = 0 ↔ now - timestamp < cache_ttl)) := by
  have hnot : ¬ market_type ∉ supported := not_not_intro hm
  set r : PairsResult := { active := pr.1, inactive := pr.2 } with hr
  have e₁ : fetch_all_pairs supported hasProcess process cache_ttl market_type true t₁ c₀ =
      { result := .ok r, cache := pyDictSet c₀ market_type (t₁, r), fetchCount := 1 } := by
    simp [fetch_all_pairs, hnot, hp, hpr, h₀, hr]
  have g₁ : pyDictGet (pyDictSet c₀ market_type (t₁, r)) market_type = some (t₁, r) :=
    pyDictGet_pyDictSet_self c₀ market_type (t₁, r)
  have e₂ : fetch_all_pairs supported hasProcess process cache_ttl market_type true t₂
      (pyDictSet c₀ market_type (t₁, r)) =
      { result := .ok r, cache := pyDictSet c₀ market_type (t₁, r), fetchCount := 0 } := by
    simp [fetch_all_pairs, hnot, g₁, h₁₂]
  have hstale : ¬ t₃ - t₁ < cache_ttl := not_lt.mpr h₁₃
  have e₃ : fetch_all_pairs supported hasProcess process cache_ttl market_type true t₃
      (pyDictSet c₀ market_type (t₁, r)) =
      { result := .ok r,
        cache := pyDictSet (pyDictSet c₀ market_type (t₁, r)) market_type (t₃, r),
        fetchCount := 1 } := by
    simp [fetch_all_pairs, hnot, g₁, hstale, hp, hpr, hr]
  have g₃ : pyDictGet (pyDictSet (pyDictSet c₀ market_type (t₁, r)) market_type (t₃, r))
      market_type = some (t₃, r) :=
    pyDictGet_pyDictSet_self _ market_type (t₃, r)
  refine ⟨by simp [e₁], by simp [e₁], by simp [e₁, g₁], by simp [e₁, e₂],
    by simp [e₁, e₂], by simp [e₁, e₂], by simp [e₁, e₂, e₃], by simp [e₁, e₂, e₃],
    by simp [e₁, e₂, e₃, g₃], ?_⟩
  intro now timestamp d c hc
  by_cases hfresh : now - timestamp < cache_ttl
  · simp [fetch_all_pairs, hnot, hc, hfresh]
  · simp [fetch_all_pairs, hnot, hc, hfresh, hp, hpr]

/-- C2 witness: a concrete adapter supporting spot with cache_ttl 60,
calls at times 100, 130 and 160. -/
theorem fetch_all_pairs_cache_ttl_witness :
    let proc : String → Except PairsError (List PairRecord × List PairRecord) :=
      fun _ => .ok ([PairRecord.mk "BTC" "BTCUSDT" "binance-spot" true], [])
    let r : PairsResult := { active := [PairRecord.mk "BTC" "BTCUSDT" "binance-spot" true],
                             inactive := [] }
    let o₁ := fetch_all_pairs ["spot"] (fun _ => true) proc 60 "spot" true 100 []
    let o₂ := fetch_all_pairs ["spot"] (fun _ => true) proc 60 "spot" true 130 o₁.cache
    let o₃ := fetch_all_pairs ["spot"] (fun _ => true) proc 60 "spot" true 160 o₂.cache
    o₁.fetchCount = 1 ∧ o₁.result = .ok r ∧
      pyDictGet o₁.cache "spot" = some (100, r) ∧
    o₂.fetchCount = 0 ∧ o₂.result = o₁.result ∧ o₂.cache = o₁.cache ∧
    o₃.fetchCount = 1 ∧ o₃.result = .ok r ∧
      pyDictGet o₃.cache "spot" = some (160, r) := by
  have h := fetch_all_pairs_cache_ttl ["spot"] (fun _ => true)
    (fun _ => .ok ([PairRecord.mk "BTC" "BTCUSDT" "binance-spot" true], []))
    60 "spot" 100 130 160 [] ([PairRecord.mk "BTC" "BTCUSDT" "binance-spot" true], [])
    (by decide) rfl rfl rfl (by decide) (by decide)
  exact ⟨h.1, h.2.1, h.2.2.1, h.2.2.2.1, h.2.2.2.2.1, h.2.2.2.2.2.1,
    h.2.2.2.2.2.2.1, h.2.2.2.2.2.2.2.1, h.2.2.2.2.2.2.2.2.1⟩

/-- C4: on a fixed successful response whose rows are newest-first, Bybit
fetch_klines returns the converted rows reversed into chronological
oldest-first order, and a repeated call with identical parameters and the
same fixed response yields the identical output. -/
theorem bybit_klines_chronological (symbol interval market : String) (limit : Int)
    (resp : BybitResponse BybitRawKline) (ps : List BybitKline)
    (hi : interval ∈ bybitValidIntervals)
    (hl : ¬(limit > 1000 ∨ limit < 1))
    (hm : market = "spot" ∨ market = "futures")
    (hrc : resp.retCode = 0)
    (hp : parseBybitKlines resp.resultList = some ps)
    (hnf : ps.Pairwise (fun a b => b.open_time < a.open_time)) :
    bybit_fetch_klines symbol interval market limit resp = .ok ps.reverse ∧
    (ps.reverse).Pairwise (fun a b => a.open_time < b.open_time) ∧
    bybit_fetch_klines symbol interval market limit resp =
      bybit_fetch_klines symbol interval market limit resp := by
  have hmarket : ¬(market ≠ "spot" ∧ market ≠ "futures") := by
    rcases hm with h | h <;> simp [h]
  refine ⟨?_, ?_, rfl⟩
  · simp [bybit_fetch_klines, hi, hl, hmarket, hrc, hp]
  · rw [List.pairwise_reverse]
    exact hnf

/-- C4 witness: the chronological-order theorem evaluated on the fixed
two-row newest-first response. -/
theorem bybit_klines_chronological_witness :
    bybit_fetch_klines "BTCUSDT" "60" "spot" 2 c4Response = .ok c4Klines.reverse ∧
    (c4Klines.reverse).Pairwise (fun a b => a.open_time < b.open_time) := by
  have h := bybit_klines_chronological "BTCUSDT" "60" "spot" 2 c4Response c4Klines
    (by decide) (by decide) (Or.inl rfl) rfl (by decide) (by decide)
  exact ⟨h.1, h.2.1⟩

/-- C7: with otherwise valid parameters, a Bybit response whose envelope
retCode is non-zero makes both fetch_klines and
fetch_funding_rate_history raise the vendor-reported exception carrying
the retMsg text of the vendor (defaulting to Unknown error), a
constructor distinct from the validation and transport errors; each
method parses the result only when retCode is zero. -/
theorem bybit_retCode_envelope (klResp : BybitResponse BybitRawKline)
    (frResp : BybitResponse BybitFundingRow) :
    (klResp.retCode ≠ 0 →
      bybit_fetch_klines "BTCUSDT" "60" "spot" 200 klResp =
        .error (.apiException ("Bybit API error: " ++ klResp.retMsg.getD "Unknown error"))) ∧
    (∀ ps, klResp.retCode = 0 → parseBybitKlines klResp.resultList = some ps →
      bybit_fetch_klines "BTCUSDT" "60" "spot" 200 klResp = .ok ps.reverse) ∧
    (frResp.retCode ≠ 0 →
      bybit_fetch_funding_rate_history "BTCUSDT" none none 200 "futures" frResp =
        .error (.apiException ("Bybit API error: " ++ frResp.retMsg.getD "Unknown error"))) ∧
    (frResp.retCode = 0 →
      bybit_fetch_funding_rate_history "BTCUSDT" none none 200 "futures" frResp =
        .ok (frResp.resultList.map fun r =>
          { symbol := r.symbol, funding_rate := r.fundingRate,
            funding_rate_timestamp := r.fundingRateTimestamp })) := by
  refine ⟨?_, ?_, ?_, ?_⟩
  · intro h
    simp [bybit_fetch_klines, bybitValidIntervals, h]
  · intro ps h hp
    simp [bybit_fetch_klines, bybitValidIntervals, h, hp]
  · intro h
    simp [bybit_fetch_funding_rate_history, h]
  · intro h
    simp [bybit_fetch_funding_rate_history, h]

/-- C7 witness: a failing envelope with retCode 10001 on fetch_klines and
a succeeding envelope with retCode 0 on fetch_funding_rate_history. -/
theorem bybit_retCode_envelope_witness :
    bybit_fetch_klines "BTCUSDT" "60" "spot" 200
        { retCode := 10001, retMsg := some "Invalid symbol", resultList := [] } =
      .error (.apiException ("Bybit API error: " ++
        (some "Invalid symbol").getD "Unknown error")) ∧
    bybit_fetch_funding_rate_history "BTCUSDT" none none 200 "futures"
        { retCode := 0, retMsg := some "OK",
          resultList := [{ symbol := some "BTCUSDT", fundingRate := some "0.0001",
                           fundingRateTimestamp := some "1700000000000" }] } =
      .ok [{ symbol := some "BTCUSDT", funding_rate := some "0.0001",
             funding_rate_timestamp := some "1700000000000" }] :=
  ⟨(bybit_retCode_envelope
      { retCode := 10001, retMsg := some "Invalid symbol", resultList := [] }
      { retCode := 0, retMsg := some "OK",
        resultList := [{ symbol := some "BTCUSDT", fundingRate := some "0.0001",
                         fundingRateTimestamp := some "1700000000000" }] }).1 (by decide),
   (bybit_retCode_envelope
      { retCode := 10001, retMsg := some "Invalid symbol", resultList := [] }
      { retCode := 0, retMsg := some "OK",
        resultList := [{ symbol := some "BTCUSDT", fundingRate := some "0.0001",
                         fundingRateTimestamp := some "1700000000000" }] }).2.2.2 rfl⟩

/-- C5: Binance fetch_klines validates the per-market limit cap before
any network call: limit 1001 on spot raises the cap ValueError whatever
the network would have returned, limit 1000 passes validation on spot,
limit 1500 passes validation on futures, and limit 1500 on spot raises
the cap ValueError whatever the network would have returned. -/
theorem binance_klines_limit_validation :
    (∀ response, binance_fetch_klines "BTCUSDT" "1h" "spot" 1001 "0" response =
      .error (.valueError "Limit cannot exceed 1000 for spot market")) ∧
    binance_fetch_klines "BTCUSDT" "1h" "spot" 1000 "0" [] = .ok [] ∧
    binance_fetch_klines "BTCUSDT" "1h" "futures" 1500 "0" [] = .ok [] ∧
    (∀ response, binance_fetch_klines "BTCUSDT" "1h" "spot" 1500 "0" response =
      .error (.valueError "Limit cannot exceed 1000 for spot market")) :=
  ⟨fun _ => rfl, rfl, rfl, fun _ => rfl⟩

/-- C6: the Hyperliquid 24h change is the mark versus previous-day
percentage rounded to 2 decimals, equal to -1.40 on mark 101540 and
previous-day 102983; and it is 0, with no division performed, whenever
the previous-day price is 0 or absent from the asset context. -/
theorem hyperliquid_price_change_24h :
    hl_market_price_change (some 101540) (some 102983) = -7 / 5 ∧
    (∀ markPx : Option ℚ, hl_market_price_change markPx (some 0) = 0) ∧
    (∀ markPx : Option ℚ, hl_market_price_change markPx none = 0) := by
  have hzero : ∀ m : ℚ, hl_price_change_24h m 0 = 0 := by
    intro m
    rw [hl_price_change_24h, if_neg (lt_irrefl 0)]
  have hround0 : round2 0 = 0 := by
    simp only [round2, pyRoundHalfEven]
    norm_num
  refine ⟨?_, ?_, ?_⟩
  · have hq : hl_price_change_24h 101540 102983 = -144300 / 102983 := by
      rw [hl_price_change_24h, if_pos (by norm_num : (0 : ℚ) < 102983)]
      norm_num
    show round2 (hl_price_change_24h 101540 102983) = -7 / 5
    rw [hq, round2]
    have hq2 : ((-144300 : ℚ) / 102983 * 100) = -14430000 / 102983 := by
      ring
    rw [hq2]
    have hfl : ⌊(-14430000 / 102983 : ℚ)⌋ = -141 :=
      Int.floor_eq_iff.mpr ⟨by norm_num, by norm_num⟩
    simp only [pyRoundHalfEven]
    rw [hfl]
    have hc1 : ¬((-14430000 / 102983 : ℚ) - ((-141 : ℤ) : ℚ) < 1 / 2) := by
      push_cast
      norm_num
    have hc2 : (1 / 2 : ℚ) < -14430000 / 102983 - ((-141 : ℤ) : ℚ) := by
      push_cast
      norm_num
    rw [if_neg hc1, if_pos hc2]
    norm_num
  · intro markPx
    show round2 (hl_price_change_24h (markPx.getD 0) 0) = 0
    rw [hzero, hround0]
  · intro markPx
    show round2 (hl_price_change_24h (markPx.getD 0) 0) = 0
    rw [hzero, hround0]

/-- C8: the Registry stores every registration under the lower-cased
name, the later of two registrations of one name wins without an error,
lookup on creation is case-insensitive so that BINANCE and binance yield
the one registered Binance adapter class, and creating an unregistered
name raises a ValueError listing the registered names. -/
theorem exchange_factory_registry :
    (∀ reg name cls, pyDictGet (ExchangeFactory.register reg name cls) (pyLower name) =
      some cls) ∧
    (∀ reg name cls₁ cls₂,
      ExchangeFactory.register (ExchangeFactory.register reg name cls₁) name cls₂ =
        ExchangeFactory.register reg name cls₂) ∧
    ExchangeFactory.create ExchangeFactory.initialRegistry "BINANCE" =
      .ok .binanceExchange ∧
    ExchangeFactory.create ExchangeFactory.initialRegistry "binance" =
      .ok .binanceExchange ∧
    ExchangeFactory.create ExchangeFactory.initialRegistry "unknown-xyz" =
      .error (.valueError ("Exchange " ++ sq ++ "unknown-xyz" ++ sq ++
        " not found. Available exchanges: " ++
        pyStrListRepr ["binance", "bybit", "hyperliquid"])) := by
  refine ⟨?_, ?_, rfl, rfl, rfl⟩
  · intro reg name cls
    exact pyDictGet_pyDictSet_self reg (pyLower name) cls
  · intro reg name cls₁ cls₂
    exact pyDictSet_pyDictSet_self reg (pyLower name) cls₁ cls₂

/-- C9: on an exchange-info response with three USDT-quoted symbols, two
TRADING and one BREAK, the full Binance spot pipeline through
fetch_all_pairs returns active with exactly the two trading entries
tagged active on binance-spot and inactive with the one remaining entry
tagged inactive, issuing one network fetch and caching the result. -/
theorem binance_spot_pipeline (t : Int) :
    fetch_all_pairs ["spot", "futures"] binanceHasProcess (binanceProcess c9SpotData [])
        60 "spot" true t [] =
      { result := .ok
          { active :=
              [{ symbol := "BTC", pair := "BTCUSDT", exchange := "binance-spot",
                 is_active := true },
               { symbol := "ETH", pair := "ETHUSDT", exchange := "binance-spot",
                 is_active := true }],
            inactive :=
              [{ symbol := "HIFI", pair := "HIFIUSDT", exchange := "binance-spot",
                 is_active := false }] },
        cache := [("spot", t,
          { active :=
              [{ symbol := "BTC", pair := "BTCUSDT", exchange := "binance-spot",
                 is_active := true },
               { symbol := "ETH", pair := "ETHUSDT", exchange := "binance-spot",
                 is_active := true }],
            inactive :=
              [{ symbol := "HIFI", pair := "HIFIUSDT", exchange := "binance-spot",
                 is_active := false }] })],
        fetchCount := 1 } := by
  rfl

end PandaMCP
